import Mathlib

/-!
Shallow embedding of the academic-tracker query portal (FastAPI + SQLAlchemy)
and proofs about its lifecycle, routing, statistics and authentication logic.

The embedding follows the Python source file by file:
  * `models/query.py`, `models/user.py`, `models/admin_user.py` — record types;
  * `schemas/query.py` — request validation (pydantic validators);
  * `endpoints/query.py` — create / update / list / stats / upload;
  * `endpoints/departments.py` — department head and department stats;
  * `endpoints/auth.py`, `endpoints/admin_auth.py` — the two login flows.

Timestamps (`func.now()`, `datetime.utcnow()`) are modelled as a `now : Nat`
argument supplied by the environment; generated UUID file names are modelled as
an argument `unique_filename` supplied by the environment.  HTTP errors are
modelled as `Except (Nat × String)` carrying the status code and detail.
-/

namespace AcademicTracker

/-- `QueryCategory` from `models/query.py` (plain `enum.Enum`). -/
inductive QueryCategory
  | IT
  | MAINTENANCE
  | RECTOR
  | WARDEN
  | ADMINISTRATION
deriving DecidableEq

/-- The `.value` string of each `QueryCategory` member. -/
def QueryCategory.value : QueryCategory → String
  | .IT => "IT"
  | .MAINTENANCE => "MAINTENANCE"
  | .RECTOR => "RECTOR"
  | .WARDEN => "WARDEN"
  | .ADMINISTRATION => "ADMINISTRATION"

/-- `QueryPriority` from `models/query.py`. -/
inductive QueryPriority
  | LOW
  | MEDIUM
  | HIGH
deriving DecidableEq

/-- The `.value` string of each `QueryPriority` member. -/
def QueryPriority.value : QueryPriority → String
  | .LOW => "LOW"
  | .MEDIUM => "MEDIUM"
  | .HIGH => "HIGH"

/-- `QueryStatus` from `models/query.py`. -/
inductive QueryStatus
  | PENDING
  | IN_PROGRESS
  | RESOLVED
  | CLOSED
deriving DecidableEq

/-- `QueryStatus` from `schemas/query.py` (`class QueryStatus(str, Enum)`):
the same four names as the models enum, but a distinct Python class.
`QueryUpdateRequest.status` is typed with this class, while
`endpoints/query.py` imports only the models `QueryStatus` (line 6). -/
inductive SchemaQueryStatus
  | PENDING
  | IN_PROGRESS
  | RESOLVED
  | CLOSED
deriving DecidableEq

/-- The models member of the same name: how a schemas `(str, Enum)` status
assigned by the `setattr` loop is persisted through the
`Enum(QueryStatus)` column — SQLAlchemy resolves the inherited str value
("RESOLVED", ...) to the same-named models member on commit/refresh. -/
def SchemaQueryStatus.toModel : SchemaQueryStatus → QueryStatus
  | .PENDING => QueryStatus.PENDING
  | .IN_PROGRESS => QueryStatus.IN_PROGRESS
  | .RESOLVED => QueryStatus.RESOLVED
  | .CLOSED => QueryStatus.CLOSED

/-- Python `==` at `endpoints/query.py:302` between the request's status
(`schemas.query.QueryStatus`, a `(str, Enum)`, possibly `None`) and
`models.query.QueryStatus.RESOLVED` (a plain `enum.Enum` member). A
`(str, Enum)` member equals only strings and members of its own class —
`str.__eq__` returns NotImplemented for the non-str plain-Enum member, and
plain-Enum equality is identity — and `None` equals neither, so the test is
False for every request value. -/
def requestStatusIsModelRESOLVED (_s : Option SchemaQueryStatus) : Bool :=
  false

/-- Python `str.upper()` restricted to the ASCII range, as used on
department identifiers throughout the endpoints. -/
def str_upper (s : String) : String :=
  String.mk (s.data.map Char.toUpper)

/-- Python `str.strip()` (leading and trailing whitespace removed), as used by
the pydantic validators in `schemas/query.py`. -/
def str_strip (s : String) : String :=
  String.mk (((s.data.dropWhile Char.isWhitespace).reverse.dropWhile
      Char.isWhitespace).reverse)

/-- The `queries` table row from `models/query.py` (`class Query`).
Nullable columns are `Option`s; `DateTime` columns are `Nat` instants. -/
structure Query where
  id : Nat
  user_id : Nat
  category : QueryCategory
  subject : String
  description : String
  priority : QueryPriority
  status : QueryStatus
  attachment_filename : Option String
  attachment_path : Option String
  attachment_data : Option String
  attachment_type : Option String
  attachment_size : Option Nat
  contact_info : Option String
  created_at : Nat
  updated_at : Nat
  resolved_at : Option Nat
  assigned_to : Option String
  assigned_member_id : Option Nat
  assigned_user : Option String
  resolution_notes : Option String
deriving DecidableEq

/-- `QueryUpdateRequest` from `schemas/query.py`: every field optional,
`None` meaning "not supplied" (the endpoint skips `None` values). -/
structure QueryUpdateRequest where
  status : Option SchemaQueryStatus := none
  category : Option QueryCategory := none
  assigned_to : Option String := none
  assigned_member_id : Option Nat := none
  assigned_user : Option String := none
  admin_response : Option String := none
  resolution_notes : Option String := none
deriving DecidableEq

/-- One step of the `for field, value in update_data.items()` loop in
`update_query` (`endpoints/query.py`): a supplied (non-`None`) value replaces
the stored one, a missing value leaves it alone.  Variant for nullable
columns. -/
def optUpd {α : Type} (v : Option α) (old : Option α) : Option α :=
  match v with
  | some x => some x
  | none => old

/-- The generic field-assignment loop of `update_query` (`endpoints/query.py`
lines 269-274).  `admin_response` has no corresponding `Query` column, so the
`hasattr` guard skips it; `resolved_at`/`updated_at` are not request fields. -/
def apply_update_fields (q : Query) (r : QueryUpdateRequest) : Query :=
  { q with
    status := (r.status.map SchemaQueryStatus.toModel).getD q.status
    category := r.category.getD q.category
    assigned_to := optUpd r.assigned_to q.assigned_to
    assigned_member_id := optUpd r.assigned_member_id q.assigned_member_id
    assigned_user := optUpd r.assigned_user q.assigned_user
    resolution_notes := optUpd r.resolution_notes q.resolution_notes }

/-- The `department_to_category` dict lookup in `update_query`
(`endpoints/query.py` lines 278-286), an identity mapping over the five
department identifiers. -/
def department_to_category (dept : String) : Option QueryCategory :=
  if dept = "IT" then some QueryCategory.IT
  else if dept = "MAINTENANCE" then some QueryCategory.MAINTENANCE
  else if dept = "RECTOR" then some QueryCategory.RECTOR
  else if dept = "WARDEN" then some QueryCategory.WARDEN
  else if dept = "ADMINISTRATION" then some QueryCategory.ADMINISTRATION
  else none

/-- The `if query_update.assigned_to:` block of `update_query`
(`endpoints/query.py` lines 276-299): when a truthy (non-`None`, non-empty)
`assigned_to` is supplied, `category` is forced to the matching department
category.  The binder is the request's `assigned_to` field. -/
def apply_assigned_transfer (q : Query) (a : Option String) : Query :=
  match a with
  | none => q
  | some s =>
    if s = "" then q
    else
      match department_to_category (str_upper s) with
      | some c => { q with category := c }
      | none => q

/-- The `resolved_at` check-then-set of `update_query` (`endpoints/query.py`
lines 301-303): `if query_update.status == QueryStatus.RESOLVED and
query.resolved_at is None`. The comparison is the cross-class one modelled
by `requestStatusIsModelRESOLVED`, so the stamp never fires. -/
def apply_resolved_transition (q : Query) (rstatus : Option SchemaQueryStatus)
    (now : Nat) : Query :=
  if requestStatusIsModelRESOLVED rstatus = true ∧ q.resolved_at = none then
    { q with resolved_at := some now }
  else q

/-- The `admin_response` append of `update_query` (`endpoints/query.py`
lines 305-310): a truthy response is appended to `resolution_notes`, or set
directly when notes are falsy (absent or empty). -/
def apply_admin_response (q : Query) (resp : Option String) : Query :=
  match resp with
  | none => q
  | some s =>
    if s = "" then q
    else
      match q.resolution_notes with
      | some notes =>
        if notes = "" then
          { q with resolution_notes := some ("Admin Response: " ++ s) }
        else
          { q with resolution_notes := some (notes ++ "\n\nAdmin Response: " ++ s) }
      | none => { q with resolution_notes := some ("Admin Response: " ++ s) }

/-- `update_query` (`endpoints/query.py` lines 253-324) applied to the query
record found by id: generic field assignment, then the `assigned_to` category
transfer, then the RESOLVED transition, then the admin-response append, then
the unconditional `updated_at` refresh. -/
def update_query_record (q : Query) (r : QueryUpdateRequest) (now : Nat) :
    Query :=
  let q1 := apply_update_fields q r
  let q2 := apply_assigned_transfer q1 r.assigned_to
  let q3 := apply_resolved_transition q2 r.status now
  let q4 := apply_admin_response q3 r.admin_response
  { q4 with updated_at := now }

/-- The `allowed_types` set of `upload_attachment` (`endpoints/query.py`
line 391). -/
def allowed_types : List String :=
  ["image/jpeg", "image/png", "application/pdf", "text/plain"]

/-- `upload_attachment` (`endpoints/query.py` lines 375-426) applied to the
query record found by id: validate the declared content type, then the byte
count against 10 MiB, then store the file under `upload_dir/unique_filename`
(the `uuid4()`-derived name supplied by the environment) and overwrite the
record's `attachment_filename`/`attachment_path` columns. -/
def upload_attachment_record (q : Query) (content_type : String)
    (content_size : Nat) (filename : String) (unique_filename : String)
    (upload_dir : String) : Except (Nat × String) (Query × String) :=
  if !(allowed_types.contains content_type) then
    Except.error (400,
      "File type not allowed. Only JPEG, PNG, PDF, and TXT files are supported.")
  else if content_size > 10 * 1024 * 1024 then
    Except.error (400, "File size too large. Maximum size is 10MB.")
  else
    Except.ok
      ({ q with
          attachment_filename := some filename
          attachment_path := some (upload_dir ++ "/" ++ unique_filename) },
        unique_filename)

/-- The `attachment_data` dict of `QueryCreate` (`schemas/query.py` line 31):
keys read with `.get`, so each is optional. -/
structure AttachmentData where
  filename : Option String
  content : Option String
  type : Option String
  size : Option Nat
deriving DecidableEq

/-- `QueryCreate` from `schemas/query.py` after pydantic validation. -/
structure QueryCreate where
  category : QueryCategory
  subject : String
  description : String
  priority : QueryPriority := QueryPriority.MEDIUM
  contact_info : Option String := none
  attachment_filename : Option String := none
  attachment_data : Option AttachmentData := none
deriving DecidableEq

/-- Construction of a `QueryCreate` with the two pydantic validators of
`schemas/query.py` (lines 33-43): subject and description must be non-blank
after stripping, and the stripped value is what the model keeps. -/
def QueryCreate.validate (category : QueryCategory)
    (subject description : String) (priority : QueryPriority)
    (contact_info attachment_filename : Option String)
    (attachment_data : Option AttachmentData) : Except String QueryCreate :=
  if str_strip subject = "" then Except.error "Subject cannot be empty"
  else if str_strip description = "" then Except.error "Description cannot be empty"
  else Except.ok
    { category := category
      subject := str_strip subject
      description := str_strip description
      priority := priority
      contact_info := contact_info
      attachment_filename := attachment_filename
      attachment_data := attachment_data }

/-- The `users` table row from `models/user.py` (`class User`). -/
structure User where
  id : Nat
  full_name : String
  email : String
  password_hash : String
  role : String
  department : Option String
  is_department_head : Bool
  is_active : Bool
  phone : Option String
  position : Option String
  status : String
  created_at : Nat
deriving DecidableEq

/-- `create_query` (`endpoints/query.py` lines 90-162): verify the owning
user exists, then insert a row with DB defaults `status=PENDING`,
`resolved_at` null, timestamps `now`.  The optional base64 file write is an
environment effect; `saved_path` is the path it produced (`none` when the
write failed — the failure is swallowed and the metadata kept). -/
def create_query (users : List User) (qc : QueryCreate) (user_id : Nat)
    (new_id now : Nat) (saved_path : Option String) :
    Except (Nat × String) Query :=
  if (users.find? (fun u => u.id == user_id)).isNone then
    Except.error (404, "User not found")
  else
    let base : Query :=
      { id := new_id
        user_id := user_id
        category := qc.category
        subject := qc.subject
        description := qc.description
        priority := qc.priority
        status := QueryStatus.PENDING
        attachment_filename := qc.attachment_filename
        attachment_path := none
        attachment_data := none
        attachment_type := none
        attachment_size := none
        contact_info := qc.contact_info
        created_at := now
        updated_at := now
        resolved_at := none
        assigned_to := none
        assigned_member_id := none
        assigned_user := none
        resolution_notes := none }
    match qc.attachment_data with
    | none => Except.ok base
    | some a =>
      Except.ok
        { base with
          attachment_filename := a.filename
          attachment_data := a.content
          attachment_type := a.type
          attachment_size := a.size
          attachment_path :=
            if a.content.isSome ∧ a.filename.isSome then saved_path else none }

/-- `QueryListResponse` from `schemas/query.py`. -/
structure QueryListResponse where
  queries : List Query
  total : Nat
  page : Nat
  per_page : Nat
  total_pages : Nat
deriving DecidableEq

/-- `get_queries` (`endpoints/query.py` lines 164-203): optional filters
(each guarded by Python truthiness, so `user_id=0` is skipped), count, then
`order_by(desc(created_at)).offset((page-1)*per_page).limit(per_page)`,
and `total_pages = (total + per_page - 1) // per_page`. -/
def get_queries (db : List Query) (page per_page : Nat) (user_id : Option Nat)
    (category : Option QueryCategory) (status : Option QueryStatus)
    (priority : Option QueryPriority) : QueryListResponse :=
  let q1 : List Query := match user_id with
    | some uid => if uid = 0 then db else db.filter (fun q => q.user_id == uid)
    | none => db
  let q2 : List Query := match category with
    | some c => q1.filter (fun q => q.category == c)
    | none => q1
  let q3 : List Query := match status with
    | some s => q2.filter (fun q => q.status == s)
    | none => q2
  let q4 : List Query := match priority with
    | some p => q3.filter (fun q => q.priority == p)
    | none => q3
  let total := q4.length
  let skip := (page - 1) * per_page
  let sorted := q4.mergeSort (fun a b => decide (b.created_at ≤ a.created_at))
  { queries := (sorted.drop skip).take per_page
    total := total
    page := page
    per_page := per_page
    total_pages := (total + per_page - 1) / per_page }

/-- `QueryStatsResponse` from `schemas/query.py`; the two dicts are
association lists keyed by the enum `.value` strings, in enum order as the
`for category in QueryCategory` loops build them. -/
structure QueryStatsResponse where
  total_queries : Nat
  pending_queries : Nat
  in_progress_queries : Nat
  resolved_queries : Nat
  closed_queries : Nat
  by_category : List (String × Nat)
  by_priority : List (String × Nat)
deriving DecidableEq

/-- Members of `QueryCategory` in declaration order. -/
def allCategories : List QueryCategory :=
  [QueryCategory.IT, QueryCategory.MAINTENANCE, QueryCategory.RECTOR,
    QueryCategory.WARDEN, QueryCategory.ADMINISTRATION]

/-- Members of `QueryPriority` in declaration order. -/
def allPriorities : List QueryPriority :=
  [QueryPriority.LOW, QueryPriority.MEDIUM, QueryPriority.HIGH]

/-- `get_query_stats` (`endpoints/query.py` lines 342-373): the total, the
four per-status counts, and one dict entry per enum member for category and
priority. -/
def get_query_stats (db : List Query) : QueryStatsResponse :=
  { total_queries := db.length
    pending_queries :=
      (db.filter (fun q => q.status == QueryStatus.PENDING)).length
    in_progress_queries :=
      (db.filter (fun q => q.status == QueryStatus.IN_PROGRESS)).length
    resolved_queries :=
      (db.filter (fun q => q.status == QueryStatus.RESOLVED)).length
    closed_queries :=
      (db.filter (fun q => q.status == QueryStatus.CLOSED)).length
    by_category := allCategories.map (fun c =>
      (c.value, (db.filter (fun q => q.category == c)).length))
    by_priority := allPriorities.map (fun p =>
      (p.value, (db.filter (fun q => q.priority == p)).length)) }

/-- `DEPARTMENT_CONFIG` from `endpoints/departments.py`: identifier, display
name, description. -/
def DEPARTMENT_CONFIG : List (String × String × String) :=
  [("IT", "IT Department", "Information Technology Support"),
    ("MAINTENANCE", "Maintenance Department",
      "Facility Maintenance & Infrastructure"),
    ("RECTOR", "Rector Office", "Academic Affairs & Administration"),
    ("WARDEN", "Warden Office", "Student Housing & Accommodation"),
    ("ADMINISTRATION", "Administration", "General Administrative Services")]

/-- The five configured department identifiers. -/
def department_ids : List String := DEPARTMENT_CONFIG.map (fun e => e.1)

/-- `set_department_head` (`endpoints/departments.py` lines 189-228):
validate the department, find the user, require membership, then clear
`is_department_head` on every user of the department and set it on the row
with the chosen id. -/
def set_department_head (users : List User) (department_id : String)
    (user_id : Nat) : Except (Nat × String) (List User) :=
  let dept_id := str_upper department_id
  if !(department_ids.contains dept_id) then
    Except.error (404, "Department not found")
  else
    match users.find? (fun u => u.id == user_id) with
    | none => Except.error (404, "User not found")
    | some user =>
      if user.department ≠ some dept_id then
        Except.error (400, "User is not a member of this department")
      else
        let cleared := users.map (fun u =>
          if u.department == some dept_id then
            { u with is_department_head := false }
          else u)
        Except.ok (cleared.map (fun u =>
          if u.id == user_id then { u with is_department_head := true } else u))

/-- Python `==` between a `QueryStatus` member and a plain string, as written
in `get_department_stats` (`endpoints/departments.py` lines 347-348:
`q.status == 'pending'`).  `QueryStatus` in `models/query.py` derives from
plain `enum.Enum`, so an enum member never compares equal to a string: the
test is `False` for every member and every string. -/
def queryStatusEqPyString (_st : QueryStatus) (_s : String) : Bool := false

/-- The response dict of `get_department_stats`
(`endpoints/departments.py` lines 338-349). -/
structure DepartmentStats where
  department_id : String
  department_name : String
  total_members : Nat
  active_members : Nat
  inactive_members : Nat
  has_head : Bool
  head_name : Option String
  total_queries : Nat
  pending_queries : Nat
  resolved_queries : Nat
deriving DecidableEq

/-- `get_department_stats` (`endpoints/departments.py` lines 306-349):
member counts, head lookup, and the join of `Query` against `User` on the
owning user's department, with the per-status counts written as
`q.status == 'pending'` / `q.status == 'resolved'`. -/
def get_department_stats (users : List User) (queries : List Query)
    (department_id : String) : Except (Nat × String) DepartmentStats :=
  let dept_id := str_upper department_id
  match DEPARTMENT_CONFIG.find? (fun e => e.1 == dept_id) with
  | none => Except.error (404, "Department not found")
  | some conf =>
    let all_members := users.filter (fun u => u.department == some dept_id)
    let head := users.find? (fun u =>
      u.department == some dept_id && u.is_department_head && u.is_active)
    let department_queries := queries.filter (fun q =>
      users.any (fun u => u.id == q.user_id && u.department == some dept_id))
    Except.ok
      { department_id := dept_id
        department_name := conf.2.1
        total_members := all_members.length
        active_members := (all_members.filter (fun m => m.is_active)).length
        inactive_members := (all_members.filter (fun m => !m.is_active)).length
        has_head := head.isSome
        head_name := head.map (fun h => h.full_name)
        total_queries := department_queries.length
        pending_queries := (department_queries.filter (fun (q : Query) =>
          queryStatusEqPyString q.status "pending")).length
        resolved_queries := (department_queries.filter (fun (q : Query) =>
          queryStatusEqPyString q.status "resolved")).length }

/-- `AdminRole` from `models/admin_user.py`. -/
inductive AdminRole
  | MAIN_ADMIN
  | DEPARTMENT_ADMIN
deriving DecidableEq

/-- `AdminStatus` from `models/admin_user.py`. -/
inductive AdminStatus
  | ACTIVE
  | INACTIVE
  | SUSPENDED
deriving DecidableEq

/-- `DepartmentType` from `models/admin_user.py`. -/
inductive DepartmentType
  | IT
  | MAINTENANCE
  | RECTOR
  | WARDEN
  | ADMINISTRATION
deriving DecidableEq

/-- The `admin_users` table row from `models/admin_user.py`. -/
structure AdminUser where
  id : Nat
  name : String
  email : String
  password_hash : String
  role : AdminRole
  department : Option DepartmentType
  phone : Option String
  status : AdminStatus
  last_login : Option Nat
  created_at : Nat
  updated_at : Nat
deriving DecidableEq

/-- `get_dashboard_url` / `DASHBOARD_URLS` from `endpoints/admin_auth.py`
(lines 24-50): dict lookup with default `/admin/dashboard.html`. -/
def get_dashboard_url (role : AdminRole) (department : Option DepartmentType) :
    String :=
  match role, department with
  | AdminRole.MAIN_ADMIN, none => "/admin/dashboard.html"
  | AdminRole.DEPARTMENT_ADMIN, some DepartmentType.IT =>
      "/dashboards/it/it-dashboard.html"
  | AdminRole.DEPARTMENT_ADMIN, some DepartmentType.MAINTENANCE =>
      "/dashboards/maintenance/maintenance-dashboard.html"
  | AdminRole.DEPARTMENT_ADMIN, some DepartmentType.RECTOR =>
      "/dashboards/rector/rector-dashboard.html"
  | AdminRole.DEPARTMENT_ADMIN, some DepartmentType.WARDEN =>
      "/dashboards/warden/warden-dashboard.html"
  | AdminRole.DEPARTMENT_ADMIN, some DepartmentType.ADMINISTRATION =>
      "/dashboards/admin/admin-dashboard.html"
  | _, _ => "/admin/dashboard.html"

/-- `login` from `endpoints/auth.py` (lines 87-108): find the user by email,
verify the password (`User.verify_password` re-hashes and compares; the hash
function — SHA-256 in `models/user.py` — is the `hash` parameter), and return
the user.  No account-status check is performed. -/
def login (hash : String → String) (users : List User)
    (email password : String) : Except (Nat × String) User :=
  match users.find? (fun u => u.email == email) with
  | none => Except.error (401, "Invalid email or password")
  | some user =>
    if user.password_hash = hash password then Except.ok user
    else Except.error (401, "Invalid email or password")

/-- `login_admin` from `endpoints/admin_auth.py` (lines 52-89): find the
admin by email, check the password (`bcrypt.checkpw`, the `checkpw`
parameter, applied to the supplied password and the stored hash), reject
non-ACTIVE accounts with 401, update `last_login`, and return the admin with
their dashboard URL. -/
def login_admin (checkpw : String → String → Bool) (admins : List AdminUser)
    (email password : String) (now : Nat) :
    Except (Nat × String) (AdminUser × String) :=
  match admins.find? (fun a => a.email == email) with
  | none => Except.error (401, "Invalid email or password")
  | some admin_user =>
    if !(checkpw password admin_user.password_hash) then
      Except.error (401, "Invalid email or password")
    else if admin_user.status ≠ AdminStatus.ACTIVE then
      Except.error (401, "Account is inactive or suspended")
    else
      Except.ok ({ admin_user with last_login := some now },
        get_dashboard_url admin_user.role admin_user.department)

/-! ### Concrete sample data, used by witnesses and counterexamples -/

/-- A pending IT query with no assignment and no resolution. -/
def sampleQuery : Query :=
  { id := 1
    user_id := 1
    category := QueryCategory.IT
    subject := "Printer broken"
    description := "No toner"
    priority := QueryPriority.HIGH
    status := QueryStatus.PENDING
    attachment_filename := none
    attachment_path := none
    attachment_data := none
    attachment_type := none
    attachment_size := none
    contact_info := none
    created_at := 1
    updated_at := 1
    resolved_at := none
    assigned_to := none
    assigned_member_id := none
    assigned_user := none
    resolution_notes := none }

/-- A query already resolved at instant 3. -/
def sampleQueryResolved : Query :=
  { sampleQuery with
    id := 2
    status := QueryStatus.RESOLVED
    resolved_at := some 3 }

/-- An update request that only sets the status to RESOLVED (the schemas
enum member, as pydantic produces it). -/
def reqResolve : QueryUpdateRequest :=
  { status := some SchemaQueryStatus.RESOLVED }

/-- An update request that reassigns to MAINTENANCE (lower case on the wire)
while also supplying a conflicting category. -/
def reqTransfer : QueryUpdateRequest :=
  { assigned_to := some "maintenance", category := some QueryCategory.RECTOR }

/-- An update request that reassigns to MAINTENANCE and supplies nothing
else — in particular no category. -/
def reqTransferOnly : QueryUpdateRequest := { assigned_to := some "MAINTENANCE" }

/-- The empty update request: every field omitted. -/
def reqEmpty : QueryUpdateRequest := {}

/-- The sample query with assignment and notes already set. -/
def sampleQueryAssigned : Query :=
  { sampleQuery with
    id := 3
    assigned_to := some "IT"
    assigned_member_id := some 5
    assigned_user := some "Bob"
    resolution_notes := some "note" }

/-- The sample query with attachment metadata already stored. -/
def sampleQueryWithAttachment : Query :=
  { sampleQuery with
    id := 4
    attachment_filename := some "old.pdf"
    attachment_path := some "uploads/old.pdf" }

/-- An active IT-department member who owns queries. -/
def deptUser : User :=
  { id := 1
    full_name := "Dana"
    email := "dana@example.com"
    password_hash := "h"
    role := "it"
    department := some "IT"
    is_department_head := false
    is_active := true
    phone := none
    position := none
    status := "Active"
    created_at := 0 }

/-- A PENDING query owned by `deptUser`. -/
def deptPendingQuery : Query := { sampleQuery with id := 10, user_id := 1 }

/-- A RESOLVED query owned by `deptUser`. -/
def deptResolvedQuery : Query :=
  { sampleQuery with
    id := 11
    user_id := 1
    status := QueryStatus.RESOLVED
    resolved_at := some 2 }

/-- The current IT department head. -/
def aliceHead : User :=
  { deptUser with
    id := 1
    full_name := "Alice"
    email := "alice@example.com"
    is_department_head := true }

/-- A plain IT department member. -/
def bobMember : User :=
  { deptUser with id := 2, full_name := "Bob", email := "bob@example.com" }

/-- The MAINTENANCE department head, untouched by IT head changes. -/
def carolOther : User :=
  { deptUser with
    id := 3
    full_name := "Carol"
    email := "carol@example.com"
    department := some "MAINTENANCE"
    is_department_head := true }

/-- Sample user directory for the department-head operation. -/
def sampleDeptUsers : List User := [aliceHead, bobMember, carolOther]

/-- A concrete instance of the User hash scheme (the claims under proof do
not depend on which function SHA-256 is, only on hash agreement). -/
def idHash : String → String := fun s => s

/-- A concrete instance of bcrypt's checkpw for the same purpose. -/
def eqCheckpw : String → String → Bool := fun p h => p == h

/-- An inactive user account whose password hash matches "secret" under
`idHash`. -/
def inactiveUser : User :=
  { id := 9
    full_name := "Ina"
    email := "ina@example.com"
    password_hash := "secret"
    role := "student"
    department := none
    is_department_head := false
    is_active := false
    phone := none
    position := none
    status := "Inactive"
    created_at := 0 }

/-- A suspended admin account whose password hash matches "adminpw" under
`eqCheckpw`. -/
def suspendedAdmin : AdminUser :=
  { id := 1
    name := "Sue"
    email := "sue@example.com"
    password_hash := "adminpw"
    role := AdminRole.MAIN_ADMIN
    department := none
    phone := none
    status := AdminStatus.SUSPENDED
    last_login := none
    created_at := 0
    updated_at := 0 }

/-- The validated create request for subject "  Printer broken " and
description " No toner  ". -/
def sampleQueryCreate : QueryCreate :=
  { category := QueryCategory.IT
    subject := str_strip "  Printer broken "
    description := str_strip " No toner  "
    priority := QueryPriority.HIGH }

/-- The record `create_query` stores for `sampleQueryCreate` (owner 1,
new id 10, instant 5). -/
def sampleCreatedQuery : Query :=
  { id := 10
    user_id := 1
    category := QueryCategory.IT
    subject := str_strip "  Printer broken "
    description := str_strip " No toner  "
    priority := QueryPriority.HIGH
    status := QueryStatus.PENDING
    attachment_filename := none
    attachment_path := none
    attachment_data := none
    attachment_type := none
    attachment_size := none
    contact_info := none
    created_at := 5
    updated_at := 5
    resolved_at := none
    assigned_to := none
    assigned_member_id := none
    assigned_user := none
    resolution_notes := none }

end AcademicTracker

namespace AcademicTracker

/-! ### Stage lemmas for `update_query_record` -/

/-- The generic assignment loop does not touch `resolved_at`. -/
theorem apply_update_fields_resolved_at (q : Query) (r : QueryUpdateRequest) :
    (apply_update_fields q r).resolved_at = q.resolved_at := rfl

/-- The `assigned_to` category transfer does not touch `resolved_at`. -/
theorem apply_assigned_transfer_resolved_at (q : Query) (a : Option String) :
    (apply_assigned_transfer q a).resolved_at = q.resolved_at := by
  unfold apply_assigned_transfer
  repeat' split
  all_goals rfl

/-- What the RESOLVED transition does to `resolved_at`: nothing — its guard
is the always-false cross-class comparison. -/
theorem apply_resolved_transition_resolved_at (q : Query)
    (rstatus : Option SchemaQueryStatus) (now : Nat) :
    (apply_resolved_transition q rstatus now).resolved_at = q.resolved_at := by
  unfold apply_resolved_transition
  split
  · rename_i h
    exact absurd h.1 (by simp [requestStatusIsModelRESOLVED])
  · rfl

/-- The admin-response append does not touch `resolved_at`. -/
theorem apply_admin_response_resolved_at (q : Query) (resp : Option String) :
    (apply_admin_response q resp).resolved_at = q.resolved_at := by
  unfold apply_admin_response
  repeat' split
  all_goals rfl

/-- `resolved_at` after a full update: unchanged, whatever the request —
no stage of `update_query` ever writes it (the line-302 guard never
fires). -/
theorem update_query_record_resolved_at (q : Query) (r : QueryUpdateRequest)
    (now : Nat) :
    (update_query_record q r now).resolved_at = q.resolved_at := by
  show (apply_admin_response (apply_resolved_transition
      (apply_assigned_transfer (apply_update_fields q r) r.assigned_to)
      r.status now) r.admin_response).resolved_at = _
  rw [apply_admin_response_resolved_at, apply_resolved_transition_resolved_at,
    apply_assigned_transfer_resolved_at, apply_update_fields_resolved_at]

/-- The RESOLVED transition does not touch `category`. -/
theorem apply_resolved_transition_category (q : Query)
    (rstatus : Option SchemaQueryStatus) (now : Nat) :
    (apply_resolved_transition q rstatus now).category = q.category := by
  unfold apply_resolved_transition
  split <;> rfl

/-- The admin-response append does not touch `category`. -/
theorem apply_admin_response_category (q : Query) (resp : Option String) :
    (apply_admin_response q resp).category = q.category := by
  unfold apply_admin_response
  repeat' split
  all_goals rfl

/-- `category` after a full update is decided by the generic assignment
followed by the `assigned_to` transfer. -/
theorem update_query_record_category (q : Query) (r : QueryUpdateRequest)
    (now : Nat) :
    (update_query_record q r now).category =
      (apply_assigned_transfer (apply_update_fields q r)
        r.assigned_to).category := by
  show (apply_admin_response (apply_resolved_transition
      (apply_assigned_transfer (apply_update_fields q r) r.assigned_to)
      r.status now) r.admin_response).category = _
  rw [apply_admin_response_category, apply_resolved_transition_category]

/-- C1: the claim says the first Update requesting RESOLVED while
`resolved_at` is null stamps it with the current time. In the code, the
guard at `endpoints/query.py:302` compares the request's schemas
`(str, Enum)` status with the models plain-Enum RESOLVED member and is
always false, so `resolved_at` is never written: every update leaves it
unchanged, and on the claim's own scenario — a pending query with null
`resolved_at` and a `{status: RESOLVED}` request — it stays null even
though the stored status does become RESOLVED. -/
theorem c1_resolved_at_never_stamped :
    (∀ (q : Query) (r : QueryUpdateRequest) (now : Nat),
      (update_query_record q r now).resolved_at = q.resolved_at)
    ∧ sampleQuery.resolved_at = none
    ∧ reqResolve.status = some SchemaQueryStatus.RESOLVED
    ∧ (update_query_record sampleQuery reqResolve 5).resolved_at = none
    ∧ (update_query_record sampleQuery reqResolve 5).status
      = QueryStatus.RESOLVED :=
  ⟨update_query_record_resolved_at, rfl, rfl, by decide, by decide⟩

/-- C2: an update whose `assigned_to` names one of the five departments
(case-insensitively, normalised to upper case) forces the stored category to
that department, whatever the prior category and whatever category value the
same request also carries. -/
theorem c2_assigned_to_forces_category (q : Query) (r : QueryUpdateRequest)
    (now : Nat) (s : String) (c : QueryCategory)
    (ha : r.assigned_to = some s)
    (hc : department_to_category (str_upper s) = some c) :
    (update_query_record q r now).category = c := by
  have hs : ¬ s = "" := by
    intro h
    rw [h] at hc
    have hnone : department_to_category (str_upper "") = none := by decide
    rw [hnone] at hc
    exact Option.noConfusion hc
  rw [update_query_record_category, ha]
  simp only [apply_assigned_transfer]
  rw [if_neg hs, hc]

/-- Concrete instance of `c2_assigned_to_forces_category`: transferring the
IT sample query to "maintenance" (lower case) ends with category
MAINTENANCE although the same request carried category RECTOR. -/
theorem c2_assigned_to_forces_category_witness :
    (update_query_record sampleQuery reqTransfer 7).category =
      QueryCategory.MAINTENANCE
    ∧ sampleQuery.category = QueryCategory.IT
    ∧ reqTransfer.category = some QueryCategory.RECTOR :=
  ⟨c2_assigned_to_forces_category sampleQuery reqTransfer 7 "maintenance"
      QueryCategory.MAINTENANCE rfl (by decide), rfl, rfl⟩

/-- C3: the department stats endpoint reports `pending_queries` and
`resolved_queries` as 0 even when the department's one user owns one PENDING
and one RESOLVED query (`total_queries` correctly counts 2): the code
compares the `QueryStatus` enum member against the lower-case strings
`'pending'` / `'resolved'`, a comparison that is always false for a plain
`enum.Enum`. -/
theorem c3_department_stats_counts_always_zero :
    ∃ st : DepartmentStats,
      get_department_stats [deptUser] [deptPendingQuery, deptResolvedQuery]
          "IT" = Except.ok st
      ∧ st.total_queries = 2
      ∧ st.pending_queries = 0
      ∧ st.resolved_queries = 0
      ∧ deptPendingQuery.status = QueryStatus.PENDING
      ∧ deptResolvedQuery.status = QueryStatus.RESOLVED
      ∧ deptPendingQuery.user_id = deptUser.id
      ∧ deptResolvedQuery.user_id = deptUser.id
      ∧ deptUser.department = some "IT" :=
  ⟨_, rfl, rfl, rfl, rfl, rfl, rfl, rfl, rfl, rfl⟩

/-- The four status counts of the stats endpoint partition the query list. -/
theorem countP_status_partition (db : List Query) :
    db.countP (fun q => q.status == QueryStatus.PENDING)
      + db.countP (fun q => q.status == QueryStatus.IN_PROGRESS)
      + db.countP (fun q => q.status == QueryStatus.RESOLVED)
      + db.countP (fun q => q.status == QueryStatus.CLOSED) = db.length := by
  induction db with
  | nil => rfl
  | cons q t ih =>
    simp only [List.countP_cons, List.length_cons]
    cases hq : q.status <;> simp [hq] <;> omega

/-- C5: the per-status counts of the stats endpoint sum to `total_queries`,
and the by-category / by-priority dicts hold a key for every enum member,
carrying that member's match count — hence 0 when no query matches. -/
theorem c5_stats_totals_and_keys (db : List Query) :
    ((get_query_stats db).pending_queries
        + (get_query_stats db).in_progress_queries
        + (get_query_stats db).resolved_queries
        + (get_query_stats db).closed_queries
      = (get_query_stats db).total_queries)
    ∧ (∀ c : QueryCategory,
        (get_query_stats db).by_category.lookup c.value =
          some ((db.filter (fun q => q.category == c)).length)
        ∧ ((∀ q ∈ db, q.category ≠ c) →
            (get_query_stats db).by_category.lookup c.value = some 0))
    ∧ (∀ p : QueryPriority,
        (get_query_stats db).by_priority.lookup p.value =
          some ((db.filter (fun q => q.priority == p)).length)
        ∧ ((∀ q ∈ db, q.priority ≠ p) →
            (get_query_stats db).by_priority.lookup p.value = some 0)) := by
  refine ⟨?_, ?_, ?_⟩
  · show (db.filter (fun q => q.status == QueryStatus.PENDING)).length
        + (db.filter (fun q => q.status == QueryStatus.IN_PROGRESS)).length
        + (db.filter (fun q => q.status == QueryStatus.RESOLVED)).length
        + (db.filter (fun q => q.status == QueryStatus.CLOSED)).length
      = db.length
    simp only [← List.countP_eq_length_filter]
    exact countP_status_partition db
  · intro c
    have hk : (get_query_stats db).by_category.lookup c.value =
        some ((db.filter (fun q => q.category == c)).length) := by
      cases c <;> rfl
    refine ⟨hk, fun h => ?_⟩
    rw [hk]
    have : (db.filter (fun q => q.category == c)).length = 0 := by
      rw [List.length_eq_zero, List.filter_eq_nil_iff]
      intro q hq
      simpa using h q hq
    rw [this]
  · intro p
    have hk : (get_query_stats db).by_priority.lookup p.value =
        some ((db.filter (fun q => q.priority == p)).length) := by
      cases p <;> rfl
    refine ⟨hk, fun h => ?_⟩
    rw [hk]
    have : (db.filter (fun q => q.priority == p)).length = 0 := by
      rw [List.length_eq_zero, List.filter_eq_nil_iff]
      intro q hq
      simpa using h q hq
    rw [this]

/-- Concrete instance of `c5_stats_totals_and_keys` on a two-query store:
the status counts sum to 2, and LOW — matched by no query — still appears in
`by_priority`, with count 0. -/
theorem c5_stats_totals_and_keys_witness :
    ((get_query_stats [sampleQuery, sampleQueryResolved]).pending_queries
        + (get_query_stats [sampleQuery, sampleQueryResolved]).in_progress_queries
        + (get_query_stats [sampleQuery, sampleQueryResolved]).resolved_queries
        + (get_query_stats [sampleQuery, sampleQueryResolved]).closed_queries
      = (get_query_stats [sampleQuery, sampleQueryResolved]).total_queries)
    ∧ (get_query_stats [sampleQuery, sampleQueryResolved]).by_priority.lookup
        QueryPriority.LOW.value = some 0 :=
  ⟨(c5_stats_totals_and_keys [sampleQuery, sampleQueryResolved]).1,
    ((c5_stats_totals_and_keys [sampleQuery, sampleQueryResolved]).2.2
      QueryPriority.LOW).2 (by decide)⟩

/-- Pagination page count: for positive `n`, the integer formula
`(t + n - 1) / n` computes the ceiling of `t / n`. -/
theorem add_pred_div_eq_ceil (t n : Nat) (hn : 0 < n) :
    ((t + n - 1) / n : Nat) = ⌈(t : ℚ) / (n : ℚ)⌉₊ := by
  have hnq : (0 : ℚ) < (n : ℚ) := by exact_mod_cast hn
  apply le_antisymm
  · have h1 : (t : ℚ) / n ≤ (⌈(t : ℚ) / n⌉₊ : ℚ) := Nat.le_ceil _
    have h2 : (t : ℚ) ≤ (⌈(t : ℚ) / n⌉₊ : ℚ) * n := by
      rw [div_le_iff hnq] at h1
      exact h1
    have h3 : t ≤ ⌈(t : ℚ) / n⌉₊ * n := by exact_mod_cast h2
    calc (t + n - 1) / n ≤ (n - 1 + ⌈(t : ℚ) / n⌉₊ * n) / n :=
          Nat.div_le_div_right (by omega)
      _ = (n - 1) / n + ⌈(t : ℚ) / n⌉₊ := Nat.add_mul_div_right _ _ hn
      _ = ⌈(t : ℚ) / n⌉₊ := by
          rw [Nat.div_eq_of_lt (by omega)]
          omega
  · rw [Nat.ceil_le, div_le_iff hnq]
    have hd := Nat.div_add_mod (t + n - 1) n
    have hm : (t + n - 1) % n < n := Nat.mod_lt _ hn
    have h5 : t ≤ n * ((t + n - 1) / n) := by omega
    have h6 : t ≤ ((t + n - 1) / n) * n := by rwa [Nat.mul_comm] at h5
    exact_mod_cast h6

/-- The three computed fields of `get_queries`, expressed over the filtered
record list the endpoint counts and slices. -/
theorem get_queries_spec (db : List Query) (page per_page : Nat)
    (user_id : Option Nat) (category : Option QueryCategory)
    (status : Option QueryStatus) (priority : Option QueryPriority) :
    ∃ base : List Query,
      (get_queries db page per_page user_id category status priority).total
        = base.length
      ∧ (get_queries db page per_page user_id category status priority).queries
        = ((base.mergeSort
              (fun a b => decide (b.created_at ≤ a.created_at))).drop
            ((page - 1) * per_page)).take per_page
      ∧ (get_queries db page per_page user_id category status
          priority).total_pages = (base.length + per_page - 1) / per_page :=
  ⟨_, rfl, rfl, rfl⟩

/-- C4: a page holds at most `per_page` records, sorted by `created_at`
descending; `total_pages` is the ceiling of `total / per_page`; and a page
starting at or past the end comes back empty rather than failing. -/
theorem c4_pagination (db : List Query) (page per_page : Nat)
    (user_id : Option Nat) (category : Option QueryCategory)
    (status : Option QueryStatus) (priority : Option QueryPriority)
    (hpage : 1 ≤ page) (hpp1 : 1 ≤ per_page) (hpp2 : per_page ≤ 100) :
    (get_queries db page per_page user_id category status
        priority).queries.length ≤ per_page
    ∧ (get_queries db page per_page user_id category status
        priority).total_pages =
      ⌈((get_queries db page per_page user_id category status
          priority).total : ℚ) / (per_page : ℚ)⌉₊
    ∧ ((page - 1) * per_page ≥
        (get_queries db page per_page user_id category status priority).total →
        (get_queries db page per_page user_id category status
          priority).queries = [])
    ∧ (get_queries db page per_page user_id category status
        priority).queries.Pairwise
          (fun a b => b.created_at ≤ a.created_at) := by
  obtain ⟨base, h1, h2, h3⟩ :=
    get_queries_spec db page per_page user_id category status priority
  refine ⟨?_, ?_, ?_, ?_⟩
  · rw [h2]
    exact List.length_take_le _ _
  · rw [h1, h3]
    exact add_pred_div_eq_ceil base.length per_page hpp1
  · intro h
    rw [h1] at h
    rw [h2, List.drop_eq_nil_of_le, List.take_nil]
    rw [List.length_mergeSort]
    exact h
  · rw [h2]
    have hs := @List.sorted_mergeSort Query
      (fun a b : Query => decide (b.created_at ≤ a.created_at))
      (fun a b c hab hbc => by
        simp only [decide_eq_true_eq] at hab hbc ⊢
        omega)
      (fun a b => by
        simp only [Bool.or_eq_true, decide_eq_true_eq]
        omega)
      base
    have hsub : (((base.mergeSort
          (fun a b => decide (b.created_at ≤ a.created_at))).drop
        ((page - 1) * per_page)).take per_page).Sublist
        (base.mergeSort (fun a b => decide (b.created_at ≤ a.created_at))) :=
      (List.take_sublist _ _).trans (List.drop_sublist _ _)
    exact ((hs.sublist hsub).imp (fun h => by
      simpa only [decide_eq_true_eq] using h))

/-- Concrete instance of `c4_pagination`: page 5 of a two-record store at 10
per page is empty, and its page count is `⌈2 / 10⌉ = 1`. -/
theorem c4_pagination_witness :
    (get_queries [sampleQuery, sampleQueryResolved] 5 10 none none none
      none).queries = []
    ∧ (get_queries [sampleQuery, sampleQueryResolved] 5 10 none none none
      none).total_pages =
      ⌈((get_queries [sampleQuery, sampleQueryResolved] 5 10 none none none
        none).total : ℚ) / (10 : ℚ)⌉₊ :=
  ⟨(c4_pagination [sampleQuery, sampleQueryResolved] 5 10 none none none none
      (by decide) (by decide) (by decide)).2.2.1 (by decide),
    (c4_pagination [sampleQuery, sampleQueryResolved] 5 10 none none none none
      (by decide) (by decide) (by decide)).2.1⟩

/-- C6: when setting a department head succeeds, the chosen user is a member
of the department carrying the head flag, and a member of that department
carries the head flag exactly when it is the chosen user — at most one head
per department. -/
theorem c6_single_department_head (users users' : List User)
    (department_id : String) (user_id : Nat)
    (h : set_department_head users department_id user_id = Except.ok users') :
    (∃ u ∈ users', u.id = user_id
        ∧ u.department = some (str_upper department_id)
        ∧ u.is_department_head = true)
    ∧ (∀ u ∈ users', u.department = some (str_upper department_id) →
        (u.is_department_head = true ↔ u.id = user_id)) := by
  simp only [set_department_head] at h
  split at h
  · exact Except.noConfusion h
  · split at h
    · exact Except.noConfusion h
    · rename_i user hfind
      split at h
      · exact Except.noConfusion h
      · rename_i hdept
        have hdept' : user.department = some (str_upper department_id) :=
          Decidable.not_not.mp hdept
        have hmem : user ∈ users := List.mem_of_find?_eq_some hfind
        have hid : user.id = user_id := by
          have := List.find?_some hfind
          simpa using this
        simp only [Except.ok.injEq] at h
        subst h
        rw [List.map_map]
        constructor
        · refine ⟨_, List.mem_map_of_mem _ hmem, ?_⟩
          simp [Function.comp, hdept', hid]
        · intro u hu hud
          rw [List.mem_map] at hu
          obtain ⟨v, hv, rfl⟩ := hu
          by_cases h2 : v.id = user_id
          · by_cases h1 : v.department = some (str_upper department_id) <;>
              simp [Function.comp, h1, h2]
          · by_cases h1 : v.department = some (str_upper department_id)
            · simp [Function.comp, h1, h2]
            · exfalso
              simp [Function.comp, h1, h2] at hud

/-- Concrete instance of `c6_single_department_head`: promoting Bob (id 2)
in "it" succeeds, and afterwards an IT member holds the head flag exactly
when it is Bob. -/
theorem c6_single_department_head_witness :
    ∃ users' : List User,
      set_department_head sampleDeptUsers "it" 2 = Except.ok users'
      ∧ (∃ u ∈ users', u.id = 2 ∧ u.department = some (str_upper "it")
          ∧ u.is_department_head = true)
      ∧ (∀ u ∈ users', u.department = some (str_upper "it") →
          (u.is_department_head = true ↔ u.id = 2)) := by
  obtain ⟨users', h⟩ :
      ∃ l, set_department_head sampleDeptUsers "it" 2 = Except.ok l :=
    ⟨_, rfl⟩
  obtain ⟨h1, h2⟩ := c6_single_department_head sampleDeptUsers users' "it" 2 h
  exact ⟨users', h, h1, h2⟩

/-- C7 counterexample: `login` (the User flow, `endpoints/auth.py`) performs
no account-status check — an inactive user whose password is correct (hash
scheme instantiated with `idHash`, under which stored hash "secret" matches
password "secret") logs in successfully instead of failing with 401, so the
claim fails for the User account class. -/
theorem c7_counterexample :
    inactiveUser.is_active = false
    ∧ login idHash [inactiveUser] "ina@example.com" "secret"
      = Except.ok inactiveUser := ⟨rfl, rfl⟩

/-- C7 amended: the AdminUser login rejects every non-ACTIVE account with a
401 error even when the password verifies; the User login performs no
account-status check at all and succeeds whenever email and password match,
whatever `is_active` holds. -/
theorem c7_inactive_account_login (checkpw : String → String → Bool)
    (hash : String → String) (admins : List AdminUser) (users : List User)
    (email password : String) (now : Nat) :
    (∀ a : AdminUser, admins.find? (fun x => x.email == email) = some a →
      checkpw password a.password_hash = true →
      a.status ≠ AdminStatus.ACTIVE →
      login_admin checkpw admins email password now
        = Except.error (401, "Account is inactive or suspended"))
    ∧ (∀ u : User, users.find? (fun x => x.email == email) = some u →
      u.password_hash = hash password →
      login hash users email password = Except.ok u) := by
  constructor
  · intro a hfind hpw hst
    simp only [login_admin, hfind]
    rw [hpw]
    simp only [Bool.not_true, Bool.false_eq_true, if_false]
    rw [if_pos hst]
  · intro u hfind hpw
    simp only [login, hfind]
    rw [if_pos hpw]

/-- Concrete instance of `c7_inactive_account_login`: the suspended admin is
refused although the password matches under `eqCheckpw`, and the inactive
user logs in although inactive. -/
theorem c7_inactive_account_login_witness :
    login_admin eqCheckpw [suspendedAdmin] "sue@example.com" "adminpw" 4
      = Except.error (401, "Account is inactive or suspended")
    ∧ login idHash [inactiveUser] "ina@example.com" "secret"
      = Except.ok inactiveUser :=
  ⟨(c7_inactive_account_login eqCheckpw idHash [suspendedAdmin] []
      "sue@example.com" "adminpw" 4).1 suspendedAdmin rfl (by decide)
      (by decide),
    (c7_inactive_account_login eqCheckpw idHash [] [inactiveUser]
      "ina@example.com" "secret" 0).2 inactiveUser rfl rfl⟩

/-- C8: for an existing query, the attachment upload fails with a 400
ValidationError exactly when the declared content type is outside
{JPEG, PNG, PDF, plain text} or the payload exceeds 10 MiB; on success the
stored attachment filename and path are replaced with the new file's name
and generated path, whatever metadata was stored before. -/
theorem c8_upload_validation (q : Query) (content_type : String)
    (content_size : Nat) (filename unique_filename upload_dir : String) :
    ((∃ msg : String, upload_attachment_record q content_type content_size
        filename unique_filename upload_dir = Except.error (400, msg))
      ↔ (content_type ∉ allowed_types ∨ content_size > 10 * 1024 * 1024))
    ∧ (∀ (q' : Query) (u : String),
        upload_attachment_record q content_type content_size filename
          unique_filename upload_dir = Except.ok (q', u) →
        q'.attachment_filename = some filename
        ∧ q'.attachment_path = some (upload_dir ++ "/" ++ unique_filename)
        ∧ u = unique_filename) := by
  by_cases hmem : content_type ∈ allowed_types
  · have hc : (!(allowed_types.contains content_type)) = false := by
      have h1 : allowed_types.contains content_type = true := by
        simpa [List.elem_iff] using hmem
      rw [h1]
      rfl
    by_cases hsz : content_size > 10 * 1024 * 1024
    · refine ⟨⟨fun _ => Or.inr hsz, fun _ => ?_⟩, ?_⟩
      · refine ⟨"File size too large. Maximum size is 10MB.", ?_⟩
        unfold upload_attachment_record
        rw [hc]
        simp only [Bool.false_eq_true, if_false]
        rw [if_pos hsz]
      · intro q' u hok
        exfalso
        unfold upload_attachment_record at hok
        rw [hc] at hok
        simp only [Bool.false_eq_true, if_false] at hok
        rw [if_pos hsz] at hok
        exact Except.noConfusion hok
    · have hok : upload_attachment_record q content_type content_size filename
          unique_filename upload_dir = Except.ok
            ({ q with
                attachment_filename := some filename
                attachment_path :=
                  some (upload_dir ++ "/" ++ unique_filename) },
              unique_filename) := by
        unfold upload_attachment_record
        rw [hc]
        simp only [Bool.false_eq_true, if_false]
        rw [if_neg hsz]
      refine ⟨⟨fun hex => ?_, fun hor => ?_⟩, ?_⟩
      · obtain ⟨msg, hmsg⟩ := hex
        rw [hok] at hmsg
        exact Except.noConfusion hmsg
      · rcases hor with hl | hr
        · exact absurd hmem hl
        · exact absurd hr hsz
      · intro q' u h
        rw [hok] at h
        simp only [Except.ok.injEq, Prod.mk.injEq] at h
        obtain ⟨hq, hu⟩ := h
        subst hq
        exact ⟨rfl, rfl, hu.symm⟩
  · have hc : (!(allowed_types.contains content_type)) = true := by
      have h1 : allowed_types.contains content_type = false := by
        simpa [List.elem_iff] using hmem
      rw [h1]
      rfl
    have herr : upload_attachment_record q content_type content_size filename
        unique_filename upload_dir = Except.error (400,
          "File type not allowed. Only JPEG, PNG, PDF, and TXT files are supported.") := by
      unfold upload_attachment_record
      rw [hc]
      simp only [if_true]
    refine ⟨⟨fun _ => Or.inl hmem, fun _ => ⟨_, herr⟩⟩, ?_⟩
    intro q' u h
    rw [herr] at h
    exact Except.noConfusion h

/-- Concrete instance of `c8_upload_validation`: uploading a small PNG over
the sample query with existing attachment metadata succeeds and replaces the
stored filename and path with the new file's values. -/
theorem c8_upload_validation_witness :
    ∃ q' : Query,
      upload_attachment_record sampleQueryWithAttachment "image/png" 4
        "new.png" "uuid1.png" "uploads" = Except.ok (q', "uuid1.png")
      ∧ q'.attachment_filename = some "new.png"
      ∧ q'.attachment_path = some ("uploads" ++ "/" ++ "uuid1.png") := by
  obtain ⟨q', u, h⟩ : ∃ x y,
      upload_attachment_record sampleQueryWithAttachment "image/png" 4
        "new.png" "uuid1.png" "uploads" = Except.ok (x, y) :=
    ⟨_, _, rfl⟩
  obtain ⟨h1, h2, h3⟩ := (c8_upload_validation sampleQueryWithAttachment
    "image/png" 4 "new.png" "uuid1.png" "uploads").2 q' u h
  subst h3
  exact ⟨q', h, h1, h2⟩

/-- C9: a create request whose subject and description are non-blank after
trimming stores the whitespace-trimmed strings, not the raw inputs. -/
theorem c9_create_trims_subject_description (category : QueryCategory)
    (subject description : String) (priority : QueryPriority)
    (contact_info attachment_filename : Option String)
    (attachment_data : Option AttachmentData) (qc : QueryCreate)
    (users : List User) (user_id new_id now : Nat) (saved_path : Option String)
    (q : Query)
    (hv : QueryCreate.validate category subject description priority
      contact_info attachment_filename attachment_data = Except.ok qc)
    (hc : create_query users qc user_id new_id now saved_path = Except.ok q) :
    q.subject = str_strip subject ∧ q.description = str_strip description := by
  unfold QueryCreate.validate at hv
  split at hv
  · exact Except.noConfusion hv
  · split at hv
    · exact Except.noConfusion hv
    · simp only [Except.ok.injEq] at hv
      subst hv
      unfold create_query at hc
      split at hc
      · exact Except.noConfusion hc
      · split at hc <;>
          · simp only [Except.ok.injEq] at hc
            subst hc
            exact ⟨rfl, rfl⟩

/-- Concrete instance of `c9_create_trims_subject_description`: creating
with subject "  Printer broken " and description " No toner  " stores the
trimmed strings. -/
theorem c9_create_trims_subject_description_witness :
    sampleCreatedQuery.subject = str_strip "  Printer broken "
    ∧ sampleCreatedQuery.description = str_strip " No toner  "
    ∧ sampleCreatedQuery.subject = "Printer broken"
    ∧ sampleCreatedQuery.description = "No toner" :=
  ⟨(c9_create_trims_subject_description QueryCategory.IT "  Printer broken "
      " No toner  " QueryPriority.HIGH none none none sampleQueryCreate
      [deptUser] 1 10 5 none sampleCreatedQuery rfl rfl).1,
    (c9_create_trims_subject_description QueryCategory.IT "  Printer broken "
      " No toner  " QueryPriority.HIGH none none none sampleQueryCreate
      [deptUser] 1 10 5 none sampleCreatedQuery rfl rfl).2,
    by decide, by decide⟩

/-- The category transfer touches no field but `category`. -/
theorem apply_assigned_transfer_fields (q : Query) (a : Option String) :
    (apply_assigned_transfer q a).status = q.status
    ∧ (apply_assigned_transfer q a).assigned_to = q.assigned_to
    ∧ (apply_assigned_transfer q a).assigned_member_id = q.assigned_member_id
    ∧ (apply_assigned_transfer q a).assigned_user = q.assigned_user
    ∧ (apply_assigned_transfer q a).resolution_notes = q.resolution_notes := by
  unfold apply_assigned_transfer
  repeat' split
  all_goals exact ⟨rfl, rfl, rfl, rfl, rfl⟩

/-- The RESOLVED transition touches no field but `resolved_at`. -/
theorem apply_resolved_transition_fields (q : Query)
    (rstatus : Option SchemaQueryStatus) (now : Nat) :
    (apply_resolved_transition q rstatus now).status = q.status
    ∧ (apply_resolved_transition q rstatus now).assigned_to = q.assigned_to
    ∧ (apply_resolved_transition q rstatus now).assigned_member_id
      = q.assigned_member_id
    ∧ (apply_resolved_transition q rstatus now).assigned_user = q.assigned_user
    ∧ (apply_resolved_transition q rstatus now).resolution_notes
      = q.resolution_notes := by
  unfold apply_resolved_transition
  repeat' split
  all_goals exact ⟨rfl, rfl, rfl, rfl, rfl⟩

/-- The admin-response append touches no field but `resolution_notes`. -/
theorem apply_admin_response_fields (q : Query) (resp : Option String) :
    (apply_admin_response q resp).status = q.status
    ∧ (apply_admin_response q resp).assigned_to = q.assigned_to
    ∧ (apply_admin_response q resp).assigned_member_id = q.assigned_member_id
    ∧ (apply_admin_response q resp).assigned_user = q.assigned_user := by
  unfold apply_admin_response
  repeat' split
  all_goals exact ⟨rfl, rfl, rfl, rfl⟩

/-- The admin-response append never nulls `resolution_notes`. -/
theorem apply_admin_response_notes_not_none (q : Query) (resp : Option String)
    (h : q.resolution_notes ≠ none) :
    (apply_admin_response q resp).resolution_notes ≠ none := by
  unfold apply_admin_response
  repeat' split
  all_goals simp_all

/-- `status` after a full update: the generically assigned value, with the
schemas member persisted as its same-named models member. -/
theorem update_query_record_status (q : Query) (r : QueryUpdateRequest)
    (now : Nat) :
    (update_query_record q r now).status
      = (r.status.map SchemaQueryStatus.toModel).getD q.status := by
  show (apply_admin_response (apply_resolved_transition
      (apply_assigned_transfer (apply_update_fields q r) r.assigned_to)
      r.status now) r.admin_response).status = _
  rw [(apply_admin_response_fields _ _).1,
    (apply_resolved_transition_fields _ _ _).1,
    (apply_assigned_transfer_fields _ _).1]
  rfl

/-- `assigned_to` after a full update. -/
theorem update_query_record_assigned_to (q : Query) (r : QueryUpdateRequest)
    (now : Nat) :
    (update_query_record q r now).assigned_to
      = optUpd r.assigned_to q.assigned_to := by
  show (apply_admin_response (apply_resolved_transition
      (apply_assigned_transfer (apply_update_fields q r) r.assigned_to)
      r.status now) r.admin_response).assigned_to = _
  rw [(apply_admin_response_fields _ _).2.1,
    (apply_resolved_transition_fields _ _ _).2.1,
    (apply_assigned_transfer_fields _ _).2.1]
  rfl

/-- `assigned_member_id` after a full update. -/
theorem update_query_record_assigned_member_id (q : Query)
    (r : QueryUpdateRequest) (now : Nat) :
    (update_query_record q r now).assigned_member_id
      = optUpd r.assigned_member_id q.assigned_member_id := by
  show (apply_admin_response (apply_resolved_transition
      (apply_assigned_transfer (apply_update_fields q r) r.assigned_to)
      r.status now) r.admin_response).assigned_member_id = _
  rw [(apply_admin_response_fields _ _).2.2.1,
    (apply_resolved_transition_fields _ _ _).2.2.1,
    (apply_assigned_transfer_fields _ _).2.2.1]
  rfl

/-- `assigned_user` after a full update. -/
theorem update_query_record_assigned_user (q : Query)
    (r : QueryUpdateRequest) (now : Nat) :
    (update_query_record q r now).assigned_user
      = optUpd r.assigned_user q.assigned_user := by
  show (apply_admin_response (apply_resolved_transition
      (apply_assigned_transfer (apply_update_fields q r) r.assigned_to)
      r.status now) r.admin_response).assigned_user = _
  rw [(apply_admin_response_fields _ _).2.2.2,
    (apply_resolved_transition_fields _ _ _).2.2.2.1,
    (apply_assigned_transfer_fields _ _).2.2.2.1]
  rfl

/-- `resolution_notes` after a full update: the admin-response append applied
over the generically assigned value. -/
theorem update_query_record_resolution_notes (q : Query)
    (r : QueryUpdateRequest) (now : Nat) :
    (update_query_record q r now).resolution_notes
      = (apply_admin_response (apply_resolved_transition
          (apply_assigned_transfer (apply_update_fields q r) r.assigned_to)
          r.status now) r.admin_response).resolution_notes := rfl

/-- C10 counterexample: updating the IT sample query with a request that
omits `category` (it is none) but carries `assigned_to = "MAINTENANCE"`
changes the stored category, so an omitted field is not always left
unchanged. -/
theorem c10_counterexample :
    reqTransferOnly.category = none
    ∧ sampleQuery.category = QueryCategory.IT
    ∧ (update_query_record sampleQuery reqTransferOnly 8).category
      = QueryCategory.MAINTENANCE := by decide

/-- C10 amended: an update leaves each omitted (or null) request field's
stored counterpart unchanged, except that `category` additionally follows a
supplied `assigned_to` and `resolution_notes` additionally grows a supplied
`admin_response` (`updated_at` is refreshed unconditionally and is not a
request field); and no update resets a previously set nullable field —
`assigned_to`, `assigned_member_id`, `assigned_user`, `resolution_notes` —
back to null. -/
theorem c10_omitted_fields_unchanged (q : Query) (r : QueryUpdateRequest)
    (now : Nat) :
    (r.status = none → (update_query_record q r now).status = q.status)
    ∧ (r.assigned_to = none →
        (update_query_record q r now).assigned_to = q.assigned_to)
    ∧ (r.assigned_member_id = none →
        (update_query_record q r now).assigned_member_id
          = q.assigned_member_id)
    ∧ (r.assigned_user = none →
        (update_query_record q r now).assigned_user = q.assigned_user)
    ∧ (r.category = none → r.assigned_to = none →
        (update_query_record q r now).category = q.category)
    ∧ (r.resolution_notes = none → r.admin_response = none →
        (update_query_record q r now).resolution_notes = q.resolution_notes)
    ∧ (q.assigned_to ≠ none →
        (update_query_record q r now).assigned_to ≠ none)
    ∧ (q.assigned_member_id ≠ none →
        (update_query_record q r now).assigned_member_id ≠ none)
    ∧ (q.assigned_user ≠ none →
        (update_query_record q r now).assigned_user ≠ none)
    ∧ (q.resolution_notes ≠ none →
        (update_query_record q r now).resolution_notes ≠ none) := by
  refine ⟨?_, ?_, ?_, ?_, ?_, ?_, ?_, ?_, ?_, ?_⟩
  · intro h
    rw [update_query_record_status, h]
    rfl
  · intro h
    rw [update_query_record_assigned_to, h]
    rfl
  · intro h
    rw [update_query_record_assigned_member_id, h]
    rfl
  · intro h
    rw [update_query_record_assigned_user, h]
    rfl
  · intro hcat ha
    rw [update_query_record_category, ha]
    show (apply_update_fields q r).category = q.category
    show r.category.getD q.category = q.category
    rw [hcat]
    rfl
  · intro hnotes hresp
    rw [update_query_record_resolution_notes, hresp]
    show (apply_resolved_transition (apply_assigned_transfer
      (apply_update_fields q r) r.assigned_to) r.status now).resolution_notes
      = q.resolution_notes
    rw [(apply_resolved_transition_fields _ _ _).2.2.2.2,
      (apply_assigned_transfer_fields _ _).2.2.2.2]
    show optUpd r.resolution_notes q.resolution_notes = q.resolution_notes
    rw [hnotes]
    rfl
  · intro h
    rw [update_query_record_assigned_to]
    cases r.assigned_to <;> simp [optUpd] <;> exact h
  · intro h
    rw [update_query_record_assigned_member_id]
    cases r.assigned_member_id <;> simp [optUpd] <;> exact h
  · intro h
    rw [update_query_record_assigned_user]
    cases r.assigned_user <;> simp [optUpd] <;> exact h
  · intro h
    rw [update_query_record_resolution_notes]
    apply apply_admin_response_notes_not_none
    rw [(apply_resolved_transition_fields _ _ _).2.2.2.2,
      (apply_assigned_transfer_fields _ _).2.2.2.2]
    show optUpd r.resolution_notes q.resolution_notes ≠ none
    cases r.resolution_notes <;> simp [optUpd] <;> exact h

/-- Concrete instance of `c10_omitted_fields_unchanged`: the empty update
request leaves the sample query's assignment and notes untouched. -/
theorem c10_omitted_fields_unchanged_witness :
    (update_query_record sampleQueryAssigned reqEmpty 9).assigned_to
      = some "IT"
    ∧ (update_query_record sampleQueryAssigned reqEmpty 9).resolution_notes
      = some "note"
    ∧ (update_query_record sampleQueryAssigned reqEmpty 9).category
      = QueryCategory.IT := by
  obtain ⟨h1, h2, h3, h4, h5, h6, h7, h8, h9, h10⟩ :=
    c10_omitted_fields_unchanged sampleQueryAssigned reqEmpty 9
  exact ⟨(h2 rfl).trans rfl, (h6 rfl rfl).trans rfl, (h5 rfl rfl).trans rfl⟩

end AcademicTracker
